import Mathlib

/-!
Verification of `scripts/resize_image.py`.

The script opens a fixed input image, computes a target height preserving the
aspect ratio against a hardcoded target width of 1920, resizes with a Lanczos
filter, saves the result to a fixed output path as PNG, and prints the
original and new dimensions and file sizes.

Embedding notes.
* Line 14 of the source computes `int((target_width * original_height) /
  original_width)`: Python true division of nonnegative integers followed by
  `int` truncation toward zero.  We model the division exactly (rational
  division); truncation toward zero of a nonnegative exact quotient is the
  floor, which on naturals is `Nat` division.  IEEE-754 rounding of the
  intermediate quotient is not modelled.
* Dividing by `original_width = 0` raises `ZeroDivisionError` in Python; the
  embedding makes that an explicit error value.
* The imaging library (decode, resample, encode) and the filesystem are the
  external collaborators of the spec, not code of this repository; they are
  modelled as deterministic functions that record image dimensions faithfully.
-/

/-- An in-memory decoded raster image: pixel width, pixel height, and an
abstract pixel payload. -/
structure Image where
  width : ℕ
  height : ℕ
  data : List ℕ
deriving DecidableEq

/-- Modelled from the spec: the external image library's decoder (`Image.open`
plus `.size`).  A file is a decodable image exactly when it carries a width, a
height and a payload; dimensions are read back exactly as stored. -/
def decode (bytes : List ℕ) : Option Image :=
  match bytes with
  | w :: h :: d => some ⟨w, h, d⟩
  | _ => none

/-- Modelled from the spec: the external image library's PNG encoder
(`resized_img.save`), deterministic, storing the dimensions followed by the
payload. -/
def encode (img : Image) : List ℕ :=
  img.width :: img.height :: img.data

/-- Modelled from the spec: `img.resize((w, h), Image.Resampling.LANCZOS)`.
The result has exactly the requested dimensions; the Lanczos resampling of the
pixel payload is abstracted (the payload is carried through), deterministic. -/
def resizeImage (img : Image) (w h : ℕ) : Image :=
  ⟨w, h, img.data⟩

/-- Fixed input path of line 8 of the source. -/
def inputPath : String := "assets/images/app_image.png"

/-- Fixed output path of line 22 of the source. -/
def outputPath : String := "assets/images/app_image_resized.png"

/-- Hardcoded target width of line 13 of the source. -/
def target_width : ℕ := 1920

/-- Height computation of line 14 of the source with the target width as a
parameter (the script fixes it to `target_width`): `int((tw * oh) / ow)`,
i.e. the floor of the exact quotient, which for naturals is `Nat` division. -/
def scaledHeight (tw ow oh : ℕ) : ℕ :=
  (tw * oh) / ow

/-- Line 14 of the source: `target_height = int((target_width * original_height)
/ original_width)`. -/
def target_height (original_width original_height : ℕ) : ℕ :=
  scaledHeight target_width original_width original_height

/-- A filesystem: a partial map from paths to file contents (byte lists). -/
def FS : Type := String → Option (List ℕ)

/-- Failure modes of the script: `FileNotFoundError` from `Image.open` on a
missing path, `UnidentifiedImageError` on an undecodable file, and
`ZeroDivisionError` from line 14 when the original width is zero. -/
inductive ScriptError where
  | fileNotFound
  | decodeError
  | zeroDivisionError
deriving DecidableEq

/-- Round a rational to the nearest integer, ties to even: the rounding used
by fixed-point formatting of a (here exactly represented) quantity. -/
def roundHalfEven (q : ℚ) : ℤ :=
  let f := ⌊q⌋
  let r := q - f
  if r < 1 / 2 then f
  else if 1 / 2 < r then f + 1
  else if f % 2 = 0 then f else f + 1

/-- Modelled from the spec: Python's format specifier `:.1f` — render with
exactly one decimal place, rounding half to even. -/
def fmt1 (q : ℚ) : String :=
  let n := roundHalfEven (q * 10)
  let sign := if n < 0 then "-" else ""
  sign ++ toString (n.natAbs / 10) ++ "." ++ toString (n.natAbs % 10)

/-- The observable outcome of one run of the script: whether it completed or
raised, the lines printed to stdout (in order, up to the point of failure),
and the filesystem after the run. -/
structure Outcome where
  result : Except ScriptError Unit
  stdout : List String
  fs : FS

/-- The whole script `scripts/resize_image.py`, line by line: open the input
(line 8), print the original size (line 9), compute the target height
(lines 12-14), print the new size (line 16), resize (line 19), save to the
output path (line 22), stat both files (lines 25-26) and print the sizes and
the reduction percentage (lines 28-30). -/
def runScript (fs : FS) : Outcome :=
  match fs inputPath with
  | none => ⟨.error .fileNotFound, [], fs⟩
  | some srcBytes =>
    match decode srcBytes with
    | none => ⟨.error .decodeError, [], fs⟩
    | some img =>
      let line1 := "Original size: (" ++ toString img.width ++ ", " ++
        toString img.height ++ ")"
      if img.width = 0 then ⟨.error .zeroDivisionError, [line1], fs⟩
      else
        let th := target_height img.width img.height
        let line2 := "New size: " ++ toString target_width ++ "x" ++ toString th
        let resized := resizeImage img target_width th
        let outBytes := encode resized
        let fs' : FS := fun p => if p = outputPath then some outBytes else fs p
        let original_size := srcBytes.length
        let new_size := outBytes.length
        let line3 := "Original file size: " ++
          fmt1 ((original_size : ℚ) / (1024 * 1024)) ++ " MB"
        let line4 := "New file size: " ++
          fmt1 ((new_size : ℚ) / (1024 * 1024)) ++ " MB"
        let line5 := "Size reduction: " ++
          fmt1 (((original_size : ℚ) - (new_size : ℚ)) / (original_size : ℚ) * 100)
          ++ "%"
        ⟨.ok (), [line1, line2, line3, line4, line5], fs'⟩

/-- C1: for every original width > 0 and original height ≥ 0, with the target
width fixed at 1920, the computed target height is the floor of
`target_width * original_height / original_width` — exact integer division
truncating toward zero, with no rounding adjustment. -/
theorem target_height_is_floor (ow oh : ℕ) (how : 0 < ow) :
    target_height ow oh = ⌊((target_width * oh : ℕ) : ℚ) / (ow : ℚ)⌋₊ ∧
    (target_height ow oh : ℤ) = Int.tdiv ((target_width * oh : ℕ) : ℤ) (ow : ℤ) := by
  constructor
  · rw [Nat.floor_div_eq_div]
    rfl
  · rfl

/-- Closed instance of `target_height_is_floor` at a 4000 × 3000 source. -/
theorem target_height_is_floor_witness :
    target_height 4000 3000 = ⌊((target_width * 3000 : ℕ) : ℚ) / ((4000 : ℕ) : ℚ)⌋₊ ∧
    (target_height 4000 3000 : ℤ) =
      Int.tdiv ((target_width * 3000 : ℕ) : ℤ) ((4000 : ℕ) : ℤ) :=
  target_height_is_floor 4000 3000 (by norm_num)

/-- C3: for positive original dimensions and a positive target width, the
computed dimensions preserve the aspect ratio up to integer truncation:
the gap between `target_height / target_width` and
`original_height / original_width` is strictly below `1 / target_width`, and
the target height is nonnegative (exact rational arithmetic). -/
theorem scaledHeight_aspect_ratio (tw ow oh : ℕ) (htw : 0 < tw) (how : 0 < ow)
    (hoh : 0 < oh) :
    |((scaledHeight tw ow oh : ℚ) / (tw : ℚ)) - ((oh : ℚ) / (ow : ℚ))| < 1 / (tw : ℚ) ∧
    0 ≤ scaledHeight tw ow oh := by
  refine ⟨?_, Nat.zero_le _⟩
  have htw' : (0 : ℚ) < (tw : ℚ) := by exact_mod_cast htw
  have how' : (0 : ℚ) < (ow : ℚ) := by exact_mod_cast how
  have hq : ((scaledHeight tw ow oh : ℕ) : ℚ) = (⌊((tw * oh : ℕ) : ℚ) / (ow : ℚ)⌋₊ : ℚ) := by
    rw [Nat.floor_div_eq_div]
    rfl
  have h0 : (0 : ℚ) ≤ ((tw * oh : ℕ) : ℚ) / (ow : ℚ) := by positivity
  have hle : ((scaledHeight tw ow oh : ℕ) : ℚ) ≤ ((tw * oh : ℕ) : ℚ) / (ow : ℚ) := by
    rw [hq]; exact Nat.floor_le h0
  have hlt : ((tw * oh : ℕ) : ℚ) / (ow : ℚ) < ((scaledHeight tw ow oh : ℕ) : ℚ) + 1 := by
    rw [hq]; exact_mod_cast Nat.lt_floor_add_one (((tw * oh : ℕ) : ℚ) / (ow : ℚ))
  have hratio : (oh : ℚ) / (ow : ℚ) = (((tw * oh : ℕ) : ℚ) / (ow : ℚ)) / (tw : ℚ) := by
    push_cast
    field_simp
    ring
  rw [hratio, div_sub_div_same, abs_div, abs_of_pos htw', div_lt_div_iff_of_pos_right htw']
  rw [abs_sub_lt_iff]
  constructor <;> linarith

/-- Closed instance of `scaledHeight_aspect_ratio` at target width 1920 and a
4000 × 3000 source. -/
theorem scaledHeight_aspect_ratio_witness :
    |((scaledHeight 1920 4000 3000 : ℚ) / ((1920 : ℕ) : ℚ)) -
      ((3000 : ℕ) : ℚ) / ((4000 : ℕ) : ℚ)| < 1 / ((1920 : ℕ) : ℚ) ∧
    0 ≤ scaledHeight 1920 4000 3000 :=
  scaledHeight_aspect_ratio 1920 4000 3000 (by norm_num) (by norm_num) (by norm_num)

/-- Sample file contents decoding to a 4000 × 3000 image. -/
def sampleBytes : List ℕ := [4000, 3000, 7]

/-- A filesystem holding only the input file, a 4000 × 3000 image. -/
def sampleFS : FS := fun p => if p = inputPath then some sampleBytes else none

/-- A second filesystem with the same input file but different contents at
every other path. -/
def sampleFS2 : FS := fun p => if p = inputPath then some sampleBytes else some [9]

/-- A filesystem with no files at all. -/
def emptyFS : FS := fun _ => none

/-- A filesystem whose input file decodes to a 0 × 5 image. -/
def zeroWidthFS : FS := fun p => if p = inputPath then some [0, 5, 1] else none

/-- A filesystem whose input file decodes to a 4000 × 1 image. -/
def thinFS : FS := fun p => if p = inputPath then some [4000, 1, 2] else none

/-- A filesystem whose input file decodes to a 1920 × 1080 image. -/
def hdFS : FS := fun p => if p = inputPath then some [1920, 1080, 3] else none

/-- C2: if the source file does not exist, the run fails with the
file-not-found error, nothing is printed, and the whole filesystem — in
particular any prior output file — is unchanged. -/
theorem missing_source_fails_early (fs : FS) (h : fs inputPath = none) :
    (runScript fs).result = Except.error ScriptError.fileNotFound ∧
    (∀ p, (runScript fs).fs p = fs p) ∧
    (runScript fs).stdout = [] := by
  refine ⟨?_, ?_, ?_⟩ <;> simp [runScript, h]

/-- Closed instance of `missing_source_fails_early` on the empty filesystem. -/
theorem missing_source_fails_early_witness :
    (runScript emptyFS).result = Except.error ScriptError.fileNotFound ∧
    (runScript emptyFS).fs outputPath = emptyFS outputPath ∧
    (runScript emptyFS).stdout = [] :=
  ⟨(missing_source_fails_early emptyFS rfl).1,
   (missing_source_fails_early emptyFS rfl).2.1 outputPath,
   (missing_source_fails_early emptyFS rfl).2.2⟩

/-- C4: after a successful run, the file written at the output path decodes to
an image whose dimensions are exactly the target width and the target height
computed from the source image. -/
theorem output_file_roundtrip (fs : FS) (bytes : List ℕ) (img : Image)
    (hfs : fs inputPath = some bytes) (hdec : decode bytes = some img)
    (hw : img.width ≠ 0) :
    (runScript fs).result = Except.ok () ∧
    (runScript fs).fs outputPath =
      some (encode (resizeImage img target_width (target_height img.width img.height))) ∧
    decode (encode (resizeImage img target_width (target_height img.width img.height))) =
      some (resizeImage img target_width (target_height img.width img.height)) ∧
    (resizeImage img target_width (target_height img.width img.height)).width =
      target_width ∧
    (resizeImage img target_width (target_height img.width img.height)).height =
      target_height img.width img.height := by
  refine ⟨?_, ?_, rfl, rfl, rfl⟩ <;>
    simp [runScript, hfs, hdec, hw]

/-- Closed instance of `output_file_roundtrip` at a 4000 × 3000 source. -/
theorem output_file_roundtrip_witness :
    (runScript sampleFS).result = Except.ok () ∧
    (runScript sampleFS).fs outputPath =
      some (encode (resizeImage ⟨4000, 3000, [7]⟩ target_width
        (target_height 4000 3000))) ∧
    decode (encode (resizeImage ⟨4000, 3000, [7]⟩ target_width
        (target_height 4000 3000))) =
      some (resizeImage ⟨4000, 3000, [7]⟩ target_width (target_height 4000 3000)) ∧
    (resizeImage ⟨4000, 3000, [7]⟩ target_width (target_height 4000 3000)).width =
      target_width ∧
    (resizeImage ⟨4000, 3000, [7]⟩ target_width (target_height 4000 3000)).height =
      target_height 4000 3000 :=
  output_file_roundtrip sampleFS sampleBytes ⟨4000, 3000, [7]⟩ rfl rfl (by decide)

/-- C5: when the original width already equals the target width 1920, the
computed target height equals the original height, the resize is a no-op on
the image, and the output file is still the re-encoding of that image. -/
theorem same_width_identity (fs : FS) (bytes : List ℕ) (img : Image)
    (hfs : fs inputPath = some bytes) (hdec : decode bytes = some img)
    (hw : img.width = target_width) :
    target_height img.width img.height = img.height ∧
    resizeImage img target_width (target_height img.width img.height) = img ∧
    (runScript fs).fs outputPath = some (encode img) := by
  have hth : target_height img.width img.height = img.height := by
    rw [hw]
    exact Nat.mul_div_cancel_left img.height (by norm_num [target_width])
  have hres : resizeImage img target_width (target_height img.width img.height) = img := by
    cases img with
    | mk w h d =>
      simp only [resizeImage] at *
      simp_all
  have hw0 : img.width ≠ 0 := by
    rw [hw]
    norm_num [target_width]
  refine ⟨hth, hres, ?_⟩
  rw [← hres]
  simp [runScript, hfs, hdec, hw0]

/-- Closed instance of `same_width_identity` at a 1920 × 1080 source. -/
theorem same_width_identity_witness :
    target_height 1920 1080 = 1080 ∧
    resizeImage ⟨1920, 1080, [3]⟩ target_width (target_height 1920 1080) =
      ⟨1920, 1080, [3]⟩ ∧
    (runScript hdFS).fs outputPath = some (encode ⟨1920, 1080, [3]⟩) :=
  same_width_identity hdFS [1920, 1080, 3] ⟨1920, 1080, [3]⟩ rfl rfl rfl

/-- C6: the run is a deterministic function of the input file: two runs over
filesystems that agree on the input path produce the same result status, the
same console output, and — whenever they succeed — byte-for-byte identical
output files (the encoder of the model is deterministic). -/
theorem identical_inputs_identical_outputs (fs1 fs2 : FS)
    (h : fs1 inputPath = fs2 inputPath) :
    (runScript fs1).result = (runScript fs2).result ∧
    (runScript fs1).stdout = (runScript fs2).stdout ∧
    ((runScript fs1).result = Except.ok () →
      (runScript fs1).fs outputPath = (runScript fs2).fs outputPath) := by
  cases hb : fs1 inputPath with
  | none =>
    have hb2 : fs2 inputPath = none := by rw [← h, hb]
    simp [runScript, hb, hb2]
  | some bytes =>
    have hb2 : fs2 inputPath = some bytes := by rw [← h, hb]
    cases hd : decode bytes with
    | none => simp [runScript, hb, hb2, hd]
    | some img =>
      by_cases hw : img.width = 0
      · simp [runScript, hb, hb2, hd, hw]
      · simp [runScript, hb, hb2, hd, hw]

/-- Closed instance of `identical_inputs_identical_outputs` for two
filesystems sharing the same input file and differing everywhere else. -/
theorem identical_inputs_identical_outputs_witness :
    (runScript sampleFS).result = (runScript sampleFS2).result ∧
    (runScript sampleFS).stdout = (runScript sampleFS2).stdout ∧
    ((runScript sampleFS).result = Except.ok () →
      (runScript sampleFS).fs outputPath = (runScript sampleFS2).fs outputPath) :=
  identical_inputs_identical_outputs sampleFS sampleFS2 rfl

/-- C7: when the decoded image has width 0 the run fails with the
division-by-zero error of line 14 and writes nothing; when the width is
positive, the division-by-zero error branch is unreachable and the run
completes. -/
theorem zero_width_divides_by_zero (fs : FS) (bytes : List ℕ) (img : Image)
    (hfs : fs inputPath = some bytes) (hdec : decode bytes = some img) :
    (img.width = 0 →
      (runScript fs).result = Except.error ScriptError.zeroDivisionError ∧
      (runScript fs).fs outputPath = fs outputPath) ∧
    (img.width ≠ 0 →
      (runScript fs).result = Except.ok () ∧
      (runScript fs).result ≠ Except.error ScriptError.zeroDivisionError) := by
  constructor
  · intro hw
    constructor <;> simp [runScript, hfs, hdec, hw]
  · intro hw
    constructor <;> simp [runScript, hfs, hdec, hw]

/-- Closed instance of `zero_width_divides_by_zero` at a 0 × 5 source. -/
theorem zero_width_divides_by_zero_witness :
    (runScript zeroWidthFS).result = Except.error ScriptError.zeroDivisionError ∧
    (runScript zeroWidthFS).fs outputPath = zeroWidthFS outputPath :=
  (zero_width_divides_by_zero zeroWidthFS [0, 5, 1] ⟨0, 5, [1]⟩ rfl rfl).1 rfl

/-- C8: the run never touches any path other than the fixed output path — in
particular the source file is never mutated. -/
theorem only_output_path_written (fs : FS) :
    (runScript fs).fs inputPath = fs inputPath ∧
    (∀ p, p ≠ outputPath → (runScript fs).fs p = fs p) := by
  have key : ∀ p, p ≠ outputPath → (runScript fs).fs p = fs p := by
    intro p hp
    cases hb : fs inputPath with
    | none => simp [runScript, hb]
    | some bytes =>
      cases hd : decode bytes with
      | none => simp [runScript, hb, hd]
      | some img =>
        by_cases hw : img.width = 0
        · simp [runScript, hb, hd, hw]
        · simp [runScript, hb, hd, hw, hp]
  exact ⟨key inputPath (by decide), key⟩

/-- Closed instance of `only_output_path_written`: the input file and an
unrelated path are untouched by a run over the sample filesystem. -/
theorem only_output_path_written_witness :
    (runScript sampleFS).fs inputPath = sampleFS inputPath ∧
    (runScript sampleFS).fs "unrelated.txt" = sampleFS "unrelated.txt" :=
  ⟨(only_output_path_written sampleFS).1,
   (only_output_path_written sampleFS).2 "unrelated.txt" (by decide)⟩

/-- C9: on a successful run the console output is exactly these five lines in
this order — original size as a tuple, new size as WxH, both file sizes in MB
to one decimal place, and the reduction percentage
`(original − new) / original × 100` to one decimal place. -/
theorem console_output_lines (fs : FS) (bytes : List ℕ) (img : Image)
    (hfs : fs inputPath = some bytes) (hdec : decode bytes = some img)
    (hw : img.width ≠ 0) :
    (runScript fs).stdout =
      ["Original size: (" ++ toString img.width ++ ", " ++
        toString img.height ++ ")",
       "New size: " ++ toString target_width ++ "x" ++
        toString (target_height img.width img.height),
       "Original file size: " ++ fmt1 ((bytes.length : ℚ) / (1024 * 1024)) ++ " MB",
       "New file size: " ++
        fmt1 (((encode (resizeImage img target_width
          (target_height img.width img.height))).length : ℚ) / (1024 * 1024)) ++ " MB",
       "Size reduction: " ++
        fmt1 (((bytes.length : ℚ) -
          ((encode (resizeImage img target_width
            (target_height img.width img.height))).length : ℚ)) /
          (bytes.length : ℚ) * 100) ++ "%"] := by
  simp [runScript, hfs, hdec, hw]

/-- Closed instance of `console_output_lines` at a 4000 × 3000 source. -/
theorem console_output_lines_witness :
    (runScript sampleFS).stdout =
      ["Original size: (" ++ toString (4000 : ℕ) ++ ", " ++
        toString (3000 : ℕ) ++ ")",
       "New size: " ++ toString target_width ++ "x" ++
        toString (target_height 4000 3000),
       "Original file size: " ++
        fmt1 ((sampleBytes.length : ℚ) / (1024 * 1024)) ++ " MB",
       "New file size: " ++
        fmt1 (((encode (resizeImage ⟨4000, 3000, [7]⟩ target_width
          (target_height 4000 3000))).length : ℚ) / (1024 * 1024)) ++ " MB",
       "Size reduction: " ++
        fmt1 (((sampleBytes.length : ℚ) -
          ((encode (resizeImage ⟨4000, 3000, [7]⟩ target_width
            (target_height 4000 3000))).length : ℚ)) /
          (sampleBytes.length : ℚ) * 100) ++ "%"] :=
  console_output_lines sampleFS sampleBytes ⟨4000, 3000, [7]⟩ rfl rfl (by decide)

/-- C10: whenever `target_width * original_height < original_width` (with a
positive original width, e.g. a 4000 × 1 source), the computed target height
is 0, nothing guards against it, and the run invokes the resize with a
zero-height target and writes the degenerate zero-height image. -/
theorem zero_target_height_unguarded (fs : FS) (bytes : List ℕ) (img : Image)
    (hfs : fs inputPath = some bytes) (hdec : decode bytes = some img)
    (hw : 0 < img.width) (hsmall : target_width * img.height < img.width) :
    target_height img.width img.height = 0 ∧
    (runScript fs).result = Except.ok () ∧
    (runScript fs).fs outputPath = some (encode (resizeImage img target_width 0)) := by
  have hth : target_height img.width img.height = 0 :=
    Nat.div_eq_of_lt hsmall
  have hw0 : img.width ≠ 0 := Nat.pos_iff_ne_zero.mp hw
  refine ⟨hth, ?_, ?_⟩ <;>
    simp [runScript, hfs, hdec, hw0, hth]

/-- Closed instance of `zero_target_height_unguarded` at a 4000 × 1 source. -/
theorem zero_target_height_unguarded_witness :
    target_height 4000 1 = 0 ∧
    (runScript thinFS).result = Except.ok () ∧
    (runScript thinFS).fs outputPath =
      some (encode (resizeImage ⟨4000, 1, [2]⟩ target_width 0)) :=
  zero_target_height_unguarded thinFS [4000, 1, 2] ⟨4000, 1, [2]⟩ rfl rfl
    (by decide) (by decide)
